import Mathlib

/-!
Verification of the triangular-arbitrage engine against its specification.

The JavaScript sources are shallowly embedded: Decimal.js values become exact
rationals, nullable JavaScript values become Option, thrown exceptions become
Except.error, and external SDK calls (the Meteora DLMM instruction builder,
the flashloan provider, the chain connection) become function parameters.
Each definition follows one source function, named after it.
-/

namespace KimiArb

/-! ## JavaScript value helpers -/

/-- Truthiness of a JavaScript string: the empty string is falsy. -/
def jsTruthy (s : String) : Bool := s ≠ ""

/-- Truthiness of a nullable JavaScript string. -/
def jsTruthyOpt (o : Option String) : Bool :=
  match o with
  | some s => jsTruthy s
  | none => false

/-- Truthiness of a nullable JavaScript number: null, undefined and 0 are falsy. -/
def jsTruthyNum (o : Option Nat) : Bool :=
  match o with
  | some n => n ≠ 0
  | none => false

/-- Truthiness of a nullable JavaScript numeric value held as a rational. -/
def jsTruthyRat (o : Option ℚ) : Bool :=
  match o with
  | some v => v ≠ 0
  | none => false

/-- JavaScript a or-or b on nullable strings: the empty string is falsy and skipped. -/
def jsOrStr (a b : Option String) : Option String :=
  match a with
  | some s => if s = "" then b else some s
  | none => b

/-- Substring containment, as in the JavaScript String.prototype.includes. -/
def strContains (hay needle : String) : Bool :=
  decide (needle.toList <:+: hay.toList)

/-- JavaScript String.prototype.toLowerCase, as a structural character map. -/
def strLower (s : String) : String := ⟨s.data.map Char.toLower⟩

/-- JavaScript String.prototype.toUpperCase, as a structural character map. -/
def strUpper (s : String) : String := ⟨s.data.map Char.toUpper⟩

/-! ## Pool classifier (utils/_utils.js)

The classifier reads a loosely-typed pool record.  The JavaScript source probes
several alternative spellings of each field (p.dex, p.raw.dex,
p.raw._original.dex, ...) with null-coalescing; the record below keeps one
Option field per probe in the same order. -/

structure ClassPool where
  dex : Option String := none
  rawDex : Option String := none
  rawOrigDex : Option String := none
  ptype : Option String := none
  poolType : Option String := none
  rawType : Option String := none
  rawPoolType : Option String := none
  rawOrigType : Option String := none
  binStep : Option Nat := none
  rawBinStep : Option Nat := none
  tickSpacing : Option Nat := none
  rawTickSpacing : Option Nat := none

/-- normalizeDex from utils/_utils.js lines 35-42: lowercase the first present
dex field, then map by substring to a canonical dex name. -/
def normalizeDex (p : ClassPool) : String :=
  let d := strLower (((p.dex.orElse fun _ => p.rawDex).orElse fun _ => p.rawOrigDex).getD "")
  if d = "" then "unknown"
  else if strContains d "meteora" then "meteora"
  else if strContains d "orca" then "orca"
  else if strContains d "raydium" then "raydium"
  else d

/-- The explicit type field probe of utils/_utils.js line 49: the first present
field among type, poolType and the raw variants, lowercased. -/
def classTypeStr (p : ClassPool) : String :=
  strLower (((((p.ptype.orElse fun _ => p.poolType).orElse
      fun _ => p.rawType).orElse
      fun _ => p.rawPoolType).orElse fun _ => p.rawOrigType).getD "")

/-- normalizeType from utils/_utils.js lines 44-57.  Note the source checks the
dex (Force Orca to Whirlpool) BEFORE it reads the explicit type field, and it
has no meteora-to-dlmm dex rule. -/
def normalizeType (p : ClassPool) : String :=
  let d := normalizeDex p
  if d = "orca" then "whirlpool"
  else
    let t := classTypeStr p
    if strContains t "dlmm" then "dlmm"
    else if strContains t "whirlpool" || strContains t "orca" then "whirlpool"
    else if strContains t "clmm" then "clmm"
    else if strContains t "cpmm" || strContains t "amm" || strContains t "constant" then "cpmm"
    else if jsTruthyNum p.binStep || jsTruthyNum p.rawBinStep then "dlmm"
    else if jsTruthyNum p.tickSpacing || jsTruthyNum p.rawTickSpacing then "whirlpool"
    else "cpmm"

/-- The classifier that claim C8 describes, written from the words of the claim:
explicit type/poolType field first, then the dex-name heuristic (meteora to
dlmm, orca to whirlpool), then the structural heuristic, then default cpmm. -/
def claimedClassify (p : ClassPool) : String :=
  let t := strLower ((p.ptype.orElse fun _ => p.poolType).getD "")
  if strContains t "dlmm" then "dlmm"
  else if strContains t "whirlpool" then "whirlpool"
  else if strContains t "clmm" then "clmm"
  else if strContains t "cpmm" then "cpmm"
  else
    let d := strLower (p.dex.getD "")
    if strContains d "meteora" then "dlmm"
    else if strContains d "orca" then "whirlpool"
    else if jsTruthyNum p.binStep then "dlmm"
    else if jsTruthyNum p.tickSpacing then "whirlpool"
    else "cpmm"

/-- The resolution order normalizeType actually implements, as a first-match
rule table: the orca dex rule first (overriding any explicit type field), then
explicit type substrings, then structural hints, and cpmm when no rule fires. -/
def amendedClassifyRules (p : ClassPool) : List (Bool × String) :=
  let t := classTypeStr p
  [ (normalizeDex p = "orca", "whirlpool"),
    (strContains t "dlmm", "dlmm"),
    (strContains t "whirlpool" || strContains t "orca", "whirlpool"),
    (strContains t "clmm", "clmm"),
    (strContains t "cpmm" || strContains t "amm" || strContains t "constant", "cpmm"),
    (jsTruthyNum p.binStep || jsTruthyNum p.rawBinStep, "dlmm"),
    (jsTruthyNum p.tickSpacing || jsTruthyNum p.rawTickSpacing, "whirlpool") ]

/-- First-match evaluation of the amended rule table, defaulting to cpmm. -/
def amendedClassify (p : ClassPool) : String :=
  (((amendedClassifyRules p).find? (fun r => r.1)).map (fun r => r.2)).getD "cpmm"

/-- getFeeRate from utils/_utils.js lines 59-65: a bps field is divided by
10000, else a rate field is used as is, else the default 0.003 is substituted. -/
def getFeeRate (feeBps feeRate : Option ℚ) : ℚ :=
  match feeBps with
  | some b => b / 10000
  | none =>
    match feeRate with
    | some f => f
    | none => 3 / 1000

/-! ## Triangle orientation solver (engine/triArbitrage.js lines 143-161) -/

structure TriPool where
  baseMint : String
  quoteMint : String
deriving DecidableEq

/-- One step of the walk: if the current mint is one side of the pool, record it
as the input mint and advance to the other side. -/
def stepPool (p : TriPool) (curr : String) : Option (String × String) :=
  if curr = p.baseMint then some (p.baseMint, p.quoteMint)
  else if curr = p.quoteMint then some (p.quoteMint, p.baseMint)
  else none

structure Triangle where
  startMint : String
  inMints : List String
deriving DecidableEq

/-- tryStart from solveTriangleOrientation: walk pool1, pool2, pool3 from the
candidate start mint and succeed only if the walk returns to it. -/
def tryStart (p1 p2 p3 : TriPool) (startMint : String) : Option Triangle :=
  match stepPool p1 startMint with
  | none => none
  | some (in1, c1) =>
    match stepPool p2 c1 with
    | none => none
    | some (in2, c2) =>
      match stepPool p3 c2 with
      | none => none
      | some (in3, c3) =>
        if c3 = startMint then some ⟨startMint, [in1, in2, in3]⟩ else none

/-- solveTriangleOrientation: try baseMint of pool1 first, then quoteMint.
The source function is async but performs no IO; it is pure. -/
def solveTriangleOrientation (p1 p2 p3 : TriPool) : Option Triangle :=
  (tryStart p1 p2 p3 p1.baseMint).orElse fun _ => tryStart p1 p2 p3 p1.quoteMint

/-- The three-hop walk described by claim C7, with the recorded input mints and
the final mint. -/
def walkMints (p1 p2 p3 : TriPool) (start : String) : Option (List String × String) :=
  (stepPool p1 start).bind fun s1 =>
  (stepPool p2 s1.2).bind fun s2 =>
  (stepPool p3 s2.2).map fun s3 => ([s1.1, s2.1, s3.1], s3.2)

/-- The walk closes: it returns to its start mint after exactly three hops. -/
def closesCycle (p1 p2 p3 : TriPool) (start : String) : Bool :=
  match walkMints p1 p2 p3 start with
  | some w => w.2 = start
  | none => false

/-! ## CPMM quote adapter (engine/Q_cpmm.fixed.js)

Decimal.js values are embedded as exact rationals, every nullable field as an
Option.  The constructor probes several alternative spellings per field
(pd.xReserve, pd.baseReserve, pd.reserve_x, ...); each null-coalescing chain is
kept as one Option field. -/

structure CpmmPoolData where
  xReserve : Option ℚ := none
  yReserve : Option ℚ := none
  feeBps : Option ℚ := none
  baseDecimals : Option ℕ := none
  quoteDecimals : Option ℕ := none

structure CPMMAdapter where
  tokenXDecimals : Option ℕ
  tokenYDecimals : Option ℕ
  feeBps : ℚ
  xReserveRaw : Option ℚ
  yReserveRaw : Option ℚ

/-- The CPMMAdapter constructor (Q_cpmm.fixed.js lines 849-867): a missing
feeBps is silently replaced by the default 25; reserves and decimals stay
nullable. -/
def CPMMAdapter.ofPoolData (pd : CpmmPoolData) : CPMMAdapter :=
  { tokenXDecimals := pd.baseDecimals
    tokenYDecimals := pd.quoteDecimals
    feeBps := pd.feeBps.getD 25
    xReserveRaw := pd.xReserve
    yReserveRaw := pd.yReserve }

/-- The fields of the normalized quote object that the claims mention.  Atomic
amounts are kept as the exact integers the source serializes with toFixed(0). -/
structure CpmmQuote where
  inAmountRaw : ℚ
  outAmountRaw : ℤ
  minOutAmountRaw : ℤ
  executionPrice : ℚ
  priceImpact : ℚ
  fee : ℚ
  swapForY : Bool

/-- quoteExactIn (Q_cpmm.fixed.js lines 910-969): fail fast on missing or zero
reserves and on a non-positive input, compute the constant-product output with
fee on input, floor the atomic output, apply slippage to the minimum output,
and normalize.  The ensure calls become Except.error in source order. -/
def CPMMAdapter.quoteExactIn (a : CPMMAdapter) (inAmountAtomic : ℚ)
    (swapForY : Bool) (slippageBps : ℚ) : Except String CpmmQuote :=
  match a.xReserveRaw, a.yReserveRaw with
  | some x, some y =>
    if 0 < x ∧ 0 < y then
      let inAmt := inAmountAtomic
      if 0 < inAmt then
        let feeRate := a.feeBps / 10000
        let oneMinusFee := 1 - feeRate
        let inAfterFee := inAmt * oneMinusFee
        let out : ℚ :=
          if swapForY then inAfterFee * y / (x + inAfterFee)
          else inAfterFee * x / (y + inAfterFee)
        let slip := slippageBps / 10000
        let minOut : ℤ := ⌊out * (1 - slip)⌋
        match a.tokenXDecimals, a.tokenYDecimals with
        | some xDec, some yDec =>
          let xUi := x / 10 ^ xDec
          let yUi := y / 10 ^ yDec
          let midPrice := if 0 < xUi then yUi / xUi else 0
          let inDec := if swapForY then xDec else yDec
          let outDec := if swapForY then yDec else xDec
          let inUi := inAmt / 10 ^ inDec
          let outUi := out / 10 ^ outDec
          let execPrice := if 0 < inUi then outUi / inUi else 0
          let priceImpact :=
            if 0 < midPrice ∧ 0 < execPrice then |midPrice - execPrice| / midPrice else 0
          .ok { inAmountRaw := inAmt
                outAmountRaw := ⌊out⌋
                minOutAmountRaw := minOut
                executionPrice := execPrice
                priceImpact := priceImpact
                fee := a.feeBps / 10000
                swapForY := swapForY }
        | _, _ => .error "CPMMAdapter missing decimals for midPrice"
      else .error "inAmountAtomic must be > 0"
    else .error "CPMM reserves are zero (cannot quote)"
  | _, _ => .error "CPMM reserves missing (run enrich reserves first)"

/-! ## Flashloan execution planner (flash/flashloanSwapInstructions.fixed.js)
and route executor (flash/swapExecutor.fixed.js)

Chain-level instruction payloads are not interpreted by this core; an instruction is
modelled by the arguments the source passes to the external builders.  The
optional Meteora DLMM package becomes an Option-valued builder parameter, and
the flashloan provider an Option-valued Except-returning function (none models
a value that is not a function). -/

structure SwapParams where
  inToken : String
  outToken : String
  inAmount : ℕ
  minOutAmount : ℕ
  lbPair : String
  user : String
  binArraysPubkey : List String
deriving DecidableEq

inductive Ix where
  | computeUnitLimit (units : ℕ)
  | computeUnitPrice (microLamports : ℕ)
  | sdkSwap (params : SwapParams)
  | flash (loanMint : Option String) (loanAmountAtomic : Option ℕ) (callbackIxs : List Ix)

structure FlashArgs where
  payer : String
  loanMint : Option String
  loanAmountAtomic : Option ℕ
  callbackIxs : List Ix

/-- One route leg as consumed by the builders (the hop shape). -/
structure Hop where
  poolAddress : Option String := none
  address : Option String := none
  id : Option String := none
  inputMint : Option String := none
  outputMint : Option String := none
  amountInAtomic : Option ℕ := none
  minOutAtomic : Option ℕ := none
  dexType : Option String := none
  dex : Option String := none
  binArraysPubkey : Option (List String) := none
  binArrays : Option (List String) := none
  quoteBinArrays : Option (List String) := none

structure ComputeBudget where
  unitLimit : Option ℕ := none
  unitPriceMicroLamports : Option ℕ := none

/-- addComputeBudgetIxs (flashloanSwapInstructions.fixed.js lines 24-31). -/
def addComputeBudgetIxs (cb : Option ComputeBudget) : List Ix :=
  let c := cb.getD {}
  (match c.unitLimit with
   | some u => [Ix.computeUnitLimit u]
   | none => []) ++
  (match c.unitPriceMicroLamports with
   | some p => [Ix.computeUnitPrice p]
   | none => [])

/-- The pool address probe of flashloanSwapInstructions.fixed.js line 38:
hop.poolAddress or-or hop.address or-or hop.id. -/
def hopPoolAddr (hop : Hop) : Option String :=
  jsOrStr (jsOrStr hop.poolAddress hop.address) hop.id

/-- The bin-array probe of line 47: binArraysPubkey, then binArrays, then the
nested quote field. -/
def hopBinArrayList (hop : Hop) : Option (List String) :=
  (hop.binArraysPubkey.orElse fun _ => hop.binArrays).orElse fun _ => hop.quoteBinArrays

/-- The uppercased dex tag of line 78: hop.dexType or-or hop.dex or-or the
empty string. -/
def hopDexTag (hop : Hop) : String :=
  strUpper ((jsOrStr hop.dexType hop.dex).getD "")

/-- buildMeteoraDlmmSwapIxs (flashloanSwapInstructions.fixed.js lines 34-72):
ensure the package, the connection, the pool address, both mints, the per-hop
amounts and a non-empty bin-array list, in source order, then call the SDK swap
builder with the per-hop amounts. -/
def buildMeteoraDlmmSwapIxs (meteoraDlmm : Option (SwapParams → List Ix))
    (hop : Hop) (payer : String) (connection : Option String) : Except String (List Ix) :=
  match meteoraDlmm with
  | none => .error "Meteora DLMM: @meteora-ag/dlmm is not installed"
  | some sdkSwapBuilder =>
    if connection.isNone then .error "Meteora DLMM: connection required"
    else if ¬ jsTruthyOpt (hopPoolAddr hop) then .error "Meteora DLMM: hop.poolAddress required"
    else if ¬ (jsTruthyOpt hop.inputMint && jsTruthyOpt hop.outputMint) then
      .error "Meteora DLMM: hop.inputMint/outputMint required"
    else
      match hop.amountInAtomic, hop.minOutAtomic with
      | none, _ => .error "Meteora DLMM: hop.amountInAtomic required"
      | some _, none => .error "Meteora DLMM: hop.minOutAtomic required"
      | some amtIn, some minOut =>
        match hopBinArrayList hop with
        | none => .error "Meteora DLMM: missing bin arrays (hop.binArrays)"
        | some binArrayList =>
          if binArrayList.isEmpty then .error "Meteora DLMM: missing bin arrays (hop.binArrays)"
          else
            .ok (sdkSwapBuilder
              { inToken := hop.inputMint.getD ""
                outToken := hop.outputMint.getD ""
                inAmount := amtIn
                minOutAmount := minOut
                lbPair := (hopPoolAddr hop).getD ""
                user := payer
                binArraysPubkey := binArrayList })

/-- buildSwapIxForPool (flashloanSwapInstructions.fixed.js lines 74-85):
dispatch on the uppercased dex tag; only the Meteora DLMM branch is
implemented, anything else throws. -/
def buildSwapIxForPool (meteoraDlmm : Option (SwapParams → List Ix))
    (hop : Hop) (payer : String) (connection : Option String) : Except String (List Ix) :=
  if ¬ (jsTruthyOpt hop.dexType || jsTruthyOpt hop.dex) then
    .error "buildSwapIxForPool: hop.dexType/hop.dex required"
  else if strContains (hopDexTag hop) "METEORA" || strContains (hopDexTag hop) "DLMM" then
    buildMeteoraDlmmSwapIxs meteoraDlmm hop payer connection
  else .error ("buildSwapIxForPool: unsupported dex for fixed builder: " ++ hopDexTag hop)

/-- The per-hop loop shared by buildFlashloanTx (lines 106-116) and
executeRoute (lines 32-39): require the per-hop amounts, then build and collect
the swap instructions.  The message prefix is empty for the flashloan builder
and "executeRoute: " for the executor. -/
def loopHops (msgPre : String) (meteoraDlmm : Option (SwapParams → List Ix))
    (legs : List Hop) (payer : String) (connection : Option String) (i : ℕ) :
    Except String (List Ix) :=
  match legs with
  | [] => .ok []
  | hop :: rest =>
    if hop.amountInAtomic.isNone then
      .error (msgPre ++ "routeLegs[" ++ toString i ++ "].amountInAtomic missing")
    else if hop.minOutAtomic.isNone then
      .error (msgPre ++ "routeLegs[" ++ toString i ++ "].minOutAtomic missing")
    else
      match buildSwapIxForPool meteoraDlmm hop payer connection with
      | .error e => .error e
      | .ok ixs =>
        match loopHops msgPre meteoraDlmm rest payer connection (i + 1) with
        | .error e => .error e
        | .ok restIxs => .ok (ixs ++ restIxs)

structure FlashloanTxResult where
  tx : List Ix
  signers : List String

/-- buildFlashloanTx (flashloanSwapInstructions.fixed.js lines 88-133):
ensure connection, payer, a non-empty leg list and a function-valued flashloan
builder; collect per-hop swap instructions (per-hop amounts required); wrap
them as the callback of the single flashloan instruction; prepend the optional
compute-budget instructions. -/
def buildFlashloanTx (meteoraDlmm : Option (SwapParams → List Ix))
    (connection : Option String) (payerKeypair : Option String)
    (loanMint : Option String) (loanAmountAtomic : Option ℕ)
    (routeLegs : List Hop)
    (flashloanInstructionBuilder : Option (FlashArgs → Except String Ix))
    (computeBudget : Option ComputeBudget) : Except String FlashloanTxResult :=
  if connection.isNone then .error "connection required"
  else if payerKeypair.isNone then .error "payerKeypair required"
  else if routeLegs.isEmpty then .error "routeLegs[] required"
  else
    match flashloanInstructionBuilder with
    | none => .error "flashloanInstructionBuilder function required"
    | some flashBuilder =>
      let payer := payerKeypair.getD ""
      match loopHops "" meteoraDlmm routeLegs payer connection 0 with
      | .error e => .error e
      | .ok perHopIxs =>
        match flashBuilder
            { payer := payer
              loanMint := loanMint
              loanAmountAtomic := loanAmountAtomic
              callbackIxs := perHopIxs } with
        | .error e => .error e
        | .ok flashIx =>
          .ok { tx := addComputeBudgetIxs computeBudget ++ [flashIx]
                signers := [payer] }

/-- executeRoute (swapExecutor.fixed.js lines 24-60): ensure connection, payer
and a non-empty leg list, then assemble compute-budget and per-hop swap
instructions (per-hop amounts required).  Signing and sending the versioned
transaction are external chain IO; the assembled instruction list is the
observable output of the embedded core. -/
def executeRoute (meteoraDlmm : Option (SwapParams → List Ix))
    (connection : Option String) (payer : Option String)
    (routeLegs : List Hop) (computeBudget : Option ComputeBudget) :
    Except String (List Ix) :=
  if connection.isNone then .error "executeRoute: connection required"
  else if payer.isNone then .error "executeRoute: payer required"
  else if routeLegs.isEmpty then .error "executeRoute: routeLegs required"
  else
    match loopHops "executeRoute: " meteoraDlmm routeLegs (payer.getD "") connection 0 with
    | .error e => .error e
    | .ok hopIxs => .ok (addComputeBudgetIxs computeBudget ++ hopIxs)

/-! ## Triangular route simulator (engine/triArbitrage.js lines 350-475)

The source of simulateTriangularRoute is damaged in three load-bearing ways,
all kept by this embedding because they decide claims C1, C2 and C3:

1. line 352, pools(1), pools(2), pools(3) = pools with the comma operator:
   the first two subexpressions are discarded reads and the third assigns the
   pools array itself into index 3, so a well-formed 3-element array has
   length 4 from this line on;
2. line 359 then tests pools.length against 3, so the need-3-pools failure is
   returned on EVERY call that survives triangle validation;
3. even if that test were passed, line 373 builds the leg-1 arguments from
   leg2.dyAtomic while leg2 is a const declared only at line 382, and line 395
   builds the leg-3 arguments from leg3.dyAtomic itself: temporal-dead-zone
   ReferenceErrors, so leg 1 never receives dxAtomic;
4. the profit computation, the unrealistic-profit guard and the success result
   (lines 404-475) sit after the closing brace of the function at line 401, at
   module top level, where the names leg1..leg3 and dxA are unbound.

simulateLeg is passed as a parameter (the leg simulator is a separate
component); the embedding shows the function never applies it. -/

structure LegResult where
  ok : Bool := false
  reason : String := ""
  dyAtomic : ℚ := 0
  isSdkVerified : Bool := false

structure LegArgs where
  pool : TriPool
  inputMint : String
  outputMint : String
  dxAtomic : ℚ
  preferSdk : Bool

structure RouteResult where
  ok : Bool
  reason : String := ""
  legs : List LegResult := []
  profitPct : Option ℚ := none

/-- simulateTriangularRoute as written (lines 350-401).  The mint and amount
validations of lines 362-370 cannot fire for string mints and an integer
amount, and are unreachable anyway: the length test of line 359 sees the
length-4 array produced by line 352 and always returns the need-3-pools
failure.  The dead branch after it is the temporal-dead-zone ReferenceError of
line 373. -/
def simulateTriangularRoute (simulateLeg : LegArgs → LegResult)
    (pools : List TriPool) (tokenA tokenB tokenC : String)
    (dxAtomic : ℤ) (maxImpactPct : ℚ) : Except String RouteResult :=
  let poolsLength := max pools.length 4
  match pools with
  | p1 :: p2 :: p3 :: _ =>
    match solveTriangleOrientation p1 p2 p3 with
    | none => .error "Invalid Triangle Orientation"
    | some _triangle =>
      if poolsLength ≠ 3 then .ok { ok := false, reason := "need-3-pools" }
      else
        let _unused := (simulateLeg, tokenA, tokenB, tokenC, dxAtomic, maxImpactPct)
        .error "ReferenceError: Cannot access leg2 before initialization"
  | _ =>
    .error "TypeError: cannot read properties of undefined"

/-- Lines 404-407 of the source: the profit computation.  These lines sit at
module top level, outside simulateTriangularRoute, so they are modelled as a
separate block: profitAtomic = outAtomic - dxAtomic and
profitPct = profitAtomic / dxAtomic x 100. -/
def orphanProfitBlock (leg3DyAtomic dxA : ℚ) : ℚ × ℚ :=
  let outA := leg3DyAtomic
  let profitA := outA - dxA
  let profitPct := profitA / dxA * 100
  (profitA, profitPct)

/-- Lines 420-427 of the source: the unrealistic-profit sanity guard, also at
module top level outside the function.  A rational profitPct is always finite,
so of the source condition (non-finite or absolute value above 50) only the
magnitude test remains. -/
def orphanSanityGuard (profitPct : ℚ) (legs : List LegResult) : Option RouteResult :=
  if 50 < |profitPct| then
    some { ok := false, reason := "unrealistic-profit", legs := legs, profitPct := some profitPct }
  else none

/-! ## Reserve hydration: the final marking pass (utils/poolLoader.js 511-533)

After the batched vault reads, enrichReserves walks every pool once more and
stamps reserveSource, hasReserves and isMathReady.  Reserves are numeric after
hydration and exact rationals here, so the isFinite test of line 521 is always
true in the embedding. -/

structure HydratedPool where
  ptype : Option String := none
  xReserve : Option ℚ := none
  yReserve : Option ℚ := none
  reserveSource : Option String := none

structure MarkedPool where
  reserveSource : String
  hasReserves : Bool
  isMathReady : Bool

/-- The final pass of enrichReserves, lines 512-533.  Line 527 of the source
reads: type === cpmm-or-dlmm-or-the-string-literal-whirlpool; the third
disjunct is the truthy string literal "whirlpool", so the condition holds for
EVERY pool and the else branch (isMathReady := true for clmm/whirlpool) is
dead.  The embedding keeps that truthy literal. -/
def finalMarkPool (p : HydratedPool) : MarkedPool :=
  let reserveSource :=
    match p.reserveSource with
    | some s =>
      if s = "" then (if jsTruthyRat p.xReserve && jsTruthyRat p.yReserve then "partial" else "none")
      else s
    | none => if jsTruthyRat p.xReserve && jsTruthyRat p.yReserve then "partial" else "none"
  let x := p.xReserve.getD 0
  let y := p.yReserve.getD 0
  let hasReserves := decide (0 < x) && decide (0 < y)
  let t := strLower (p.ptype.getD "")
  let isMathReady :=
    if t = "cpmm" || t = "dlmm" || jsTruthy "whirlpool" then hasReserves else true
  { reserveSource := reserveSource, hasReserves := hasReserves, isMathReady := isMathReady }

/-! ## Concrete fixtures used by the theorems -/

/-- A SOL/USDC pool, first leg of a valid triangle. -/
def poolAB0 : TriPool := ⟨"SOLMINT", "USDCMINT"⟩

/-- A USDC/XTK pool, second leg of a valid triangle. -/
def poolBC0 : TriPool := ⟨"USDCMINT", "XTKMINT"⟩

/-- An XTK/SOL pool, third leg of a valid triangle. -/
def poolCA0 : TriPool := ⟨"XTKMINT", "SOLMINT"⟩

/-- A successful first-leg result, as the guard block would receive it. -/
def legFix1 : LegResult := { ok := true, dyAtomic := 11, isSdkVerified := true }

/-- A successful second-leg result. -/
def legFix2 : LegResult := { ok := true, dyAtomic := 12 }

/-- A successful third-leg result. -/
def legFix3 : LegResult := { ok := true, dyAtomic := 13 }

/-! ## Claims C1, C2, C3: the triangular route simulator -/

/-- C1: the claim says leg 1 runs with dxAtomic and legs 2 and 3 each consume
the previous leg output.  The code never simulates any leg: on a valid
3-pool triangle with a positive amount it returns the need-3-pools failure
(the self-assignment of line 352 grows the pool array to length 4, so the
length test of line 359 always fires), and the result does not depend on the
leg simulator at all.  The leg calls it would make read leg2.dyAtomic and
leg3.dyAtomic before initialization, not dxAtomic and the previous outputs. -/
theorem simulateTriangularRoute_never_runs_legs :
    (solveTriangleOrientation poolAB0 poolBC0 poolCA0).isSome = true ∧
    ∀ simulateLeg : LegArgs → LegResult,
      simulateTriangularRoute simulateLeg [poolAB0, poolBC0, poolCA0]
        "SOLMINT" "USDCMINT" "XTKMINT" 1000000000 5
        = .ok { ok := false, reason := "need-3-pools" } :=
  ⟨rfl, fun _ => rfl⟩

/-- C2: the profit formulas of the claim do appear in the source (lines
404-407) and give profitPct exactly 1/2 on the cited example, but those lines
sit outside the function body; simulateTriangularRoute itself returns the
need-3-pools failure even when every precondition of the claim holds, so no
success result is ever produced. -/
theorem simulateTriangularRoute_no_success_result :
    orphanProfitBlock 10050000000 10000000000 = (50000000, 1/2) ∧
    ∀ simulateLeg : LegArgs → LegResult,
      simulateTriangularRoute simulateLeg [poolAB0, poolBC0, poolCA0]
        "SOLMINT" "USDCMINT" "XTKMINT" 10000000000 5
        = .ok { ok := false, reason := "need-3-pools" } :=
  ⟨by unfold orphanProfitBlock; norm_num, fun _ => rfl⟩

/-- C3: the unrealistic-profit guard (lines 420-427) would return the
unrealistic-profit failure carrying the three legs at profitPct = 75, but the
block sits outside the function at module top level; simulateTriangularRoute
returns the need-3-pools failure before any profit is computed, so it never
returns reason unrealistic-profit. -/
theorem simulateTriangularRoute_guard_orphaned :
    orphanSanityGuard 75 [legFix1, legFix2, legFix3]
      = some { ok := false, reason := "unrealistic-profit",
               legs := [legFix1, legFix2, legFix3], profitPct := some 75 } ∧
    ∀ simulateLeg : LegArgs → LegResult,
      simulateTriangularRoute simulateLeg [poolAB0, poolBC0, poolCA0]
        "SOLMINT" "USDCMINT" "XTKMINT" 2000000000 5
        = .ok { ok := false, reason := "need-3-pools" } :=
  ⟨by unfold orphanSanityGuard; rw [if_pos (by norm_num)], fun _ => rfl⟩

/-! ## Claim C9: the hydration marking pass -/

/-- C9: the claim says clmm and whirlpool pools are math-ready by policy,
regardless of reserves.  In the source the condition of line 527 ends in the
truthy string literal "whirlpool", so every pool, clmm and whirlpool included,
takes the reserves-based branch: a clmm or whirlpool pool without reserves is
marked NOT math-ready.  The cpmm reserves-based half of the claim does hold,
and the reserve-source tag is always one of fresh/cache/partial/none. -/
theorem finalMarkPool_clmm_not_mathReady :
    (finalMarkPool { ptype := some "clmm", reserveSource := some "none" }).isMathReady = false ∧
    (finalMarkPool { ptype := some "whirlpool", reserveSource := some "none" }).isMathReady = false ∧
    (finalMarkPool { ptype := some "cpmm", xReserve := some 5, yReserve := some 7,
                     reserveSource := some "fresh" }).isMathReady = true ∧
    (finalMarkPool { ptype := some "clmm", reserveSource := some "none" }).reserveSource
      = "none" :=
  ⟨rfl, rfl, rfl, rfl⟩

/-! ## Claim C8: the pool classifier -/

/-- An Orca pool with an explicit clmm type field. -/
def orcaClmmPool : ClassPool := { dex := some "orca", ptype := some "clmm" }

/-- A Meteora pool with no type field and no structural hints. -/
def meteoraBarePool : ClassPool := { dex := some "meteora" }

/-- C8 counterexample: the claimed resolution order (explicit type field first,
meteora-to-dlmm dex heuristic) disagrees with normalizeType on two concrete
records.  An explicit clmm type is overridden by the orca dex rule, which the
source applies FIRST, and a bare meteora pool falls through to cpmm because
the source has no meteora dex rule at all. -/
theorem normalizeType_order_counterexample :
    claimedClassify orcaClmmPool = "clmm" ∧ normalizeType orcaClmmPool = "whirlpool" ∧
    claimedClassify meteoraBarePool = "dlmm" ∧ normalizeType meteoraBarePool = "cpmm" :=
  ⟨rfl, rfl, rfl, rfl⟩

/-- C8 amended: normalizeType is pure and total with values among the four
variants, and resolves by first match in this rule order: orca dex name first
(overriding any explicit type), then explicit type/poolType substrings (dlmm,
whirlpool or orca, clmm, cpmm or amm or constant), then structural hints
(binStep then tickSpacing), and cpmm when no rule fires; there is no
meteora-to-dlmm dex rule. -/
theorem normalizeType_matches_amended_order (p : ClassPool) :
    normalizeType p = amendedClassify p ∧
    normalizeType p ∈ ["cpmm", "dlmm", "clmm", "whirlpool"] := by
  have key : normalizeType p = amendedClassify p := by
    unfold normalizeType amendedClassify amendedClassifyRules
    by_cases h1 : normalizeDex p = "orca" <;>
    cases h2 : strContains (classTypeStr p) "dlmm" <;>
    cases h3 : (strContains (classTypeStr p) "whirlpool" || strContains (classTypeStr p) "orca") <;>
    cases h4 : strContains (classTypeStr p) "clmm" <;>
    cases h5 : (strContains (classTypeStr p) "cpmm" || strContains (classTypeStr p) "amm"
        || strContains (classTypeStr p) "constant") <;>
    cases h6 : (jsTruthyNum p.binStep || jsTruthyNum p.rawBinStep) <;>
    cases h7 : (jsTruthyNum p.tickSpacing || jsTruthyNum p.rawTickSpacing) <;>
      simp_all [List.find?, -Bool.or_eq_true]
  refine ⟨key, ?_⟩
  rw [key]
  unfold amendedClassify amendedClassifyRules
  by_cases h1 : normalizeDex p = "orca" <;>
  cases h2 : strContains (classTypeStr p) "dlmm" <;>
  cases h3 : (strContains (classTypeStr p) "whirlpool" || strContains (classTypeStr p) "orca") <;>
  cases h4 : strContains (classTypeStr p) "clmm" <;>
  cases h5 : (strContains (classTypeStr p) "cpmm" || strContains (classTypeStr p) "amm"
      || strContains (classTypeStr p) "constant") <;>
  cases h6 : (jsTruthyNum p.binStep || jsTruthyNum p.rawBinStep) <;>
  cases h7 : (jsTruthyNum p.tickSpacing || jsTruthyNum p.rawTickSpacing) <;>
    simp_all [List.find?, -Bool.or_eq_true]

/-! ## Claim C7: the triangle orientation solver -/

/-- C7: solveTriangleOrientation tries baseMint of pool1 and then quoteMint as
the start, walks pool1, pool2, pool3, advancing from the matching side of each
pool to its other side, succeeds exactly when the walk returns to the start
after three hops, returns the first successful orientation with the recorded
input mints, and otherwise none.  Determinism and freedom from side effects
hold because the embedding is a pure function of the three pools. -/
theorem solveTriangleOrientation_characterization (p1 p2 p3 : TriPool) :
    solveTriangleOrientation p1 p2 p3 =
      if closesCycle p1 p2 p3 p1.baseMint then
        (walkMints p1 p2 p3 p1.baseMint).map fun w => ⟨p1.baseMint, w.1⟩
      else if closesCycle p1 p2 p3 p1.quoteMint then
        (walkMints p1 p2 p3 p1.quoteMint).map fun w => ⟨p1.quoteMint, w.1⟩
      else none := by
  have key : ∀ s, tryStart p1 p2 p3 s =
      if closesCycle p1 p2 p3 s then
        (walkMints p1 p2 p3 s).map fun w => ⟨s, w.1⟩
      else none := by
    intro s
    unfold tryStart closesCycle walkMints
    cases h1 : stepPool p1 s with
    | none => simp [h1]
    | some s1 =>
      obtain ⟨in1, c1⟩ := s1
      cases h2 : stepPool p2 c1 with
      | none => simp [h1, h2]
      | some s2 =>
        obtain ⟨in2, c2⟩ := s2
        cases h3 : stepPool p3 c2 with
        | none => simp [h1, h2, h3]
        | some s3 =>
          obtain ⟨in3, c3⟩ := s3
          by_cases h4 : c3 = s <;> simp [h1, h2, h3, h4]
  have hsome : ∀ s, closesCycle p1 p2 p3 s = true → ∃ w, walkMints p1 p2 p3 s = some w := by
    intro s hs
    unfold closesCycle at hs
    cases hw : walkMints p1 p2 p3 s with
    | none => rw [hw] at hs; simp at hs
    | some w => exact ⟨w, rfl⟩
  rw [solveTriangleOrientation, key p1.baseMint, key p1.quoteMint]
  by_cases hb : closesCycle p1 p2 p3 p1.baseMint = true
  · obtain ⟨w, hw⟩ := hsome _ hb
    simp [hb, hw, Option.orElse]
  · simp only [Bool.not_eq_true] at hb
    by_cases hq : closesCycle p1 p2 p3 p1.quoteMint = true
    · obtain ⟨w, hw⟩ := hsome _ hq
      simp [hb, hq, hw, Option.orElse]
    · simp only [Bool.not_eq_true] at hq
      simp [hb, hq, Option.orElse]

/-! ## Claims C4, C5: the CPMM adapter -/

/-- Bounds for the constant-product output before flooring: with positive
reserves and a positive effective input, the raw output is nonnegative and its
floor stays strictly below the output-side reserve. -/
lemma cpmm_out_bounds (xr yr e : ℚ) (hx : 0 < xr) (hy : 0 < yr) (he : 0 < e) :
    0 ≤ ⌊e * yr / (xr + e)⌋ ∧ ((⌊e * yr / (xr + e)⌋ : ℚ) < yr) := by
  have hd : 0 < xr + e := by linarith
  have hnn : 0 ≤ e * yr / (xr + e) := div_nonneg (by positivity) hd.le
  have hlt : e * yr / (xr + e) < yr := by
    rw [div_lt_iff hd]
    nlinarith
  exact ⟨Int.floor_nonneg.mpr hnn, lt_of_le_of_lt (Int.floor_le _) hlt⟩

/-- C4: for positive reserves, fee rate in the interval from 0 up to but not
including 1, and a positive input, quoteExactIn succeeds and its atomic output
is exactly the floor of dx times one-minus-fee times the output reserve over
the input reserve plus the effective input, computed in exact rational
arithmetic, with the output nonnegative and strictly below the output
reserve. -/
theorem cpmm_quoteExactIn_exact_floor (a : CPMMAdapter) (x y dx slippageBps : ℚ)
    (swapForY : Bool)
    (hx : a.xReserveRaw = some x) (hy : a.yReserveRaw = some y)
    (hxd : a.tokenXDecimals.isSome = true) (hyd : a.tokenYDecimals.isSome = true)
    (hxpos : 0 < x) (hypos : 0 < y) (hdx : 0 < dx)
    (hf0 : 0 ≤ a.feeBps / 10000) (hf1 : a.feeBps / 10000 < 1) :
    ∃ q, a.quoteExactIn dx swapForY slippageBps = .ok q ∧
      q.outAmountRaw =
        ⌊dx * (1 - a.feeBps / 10000) * (if swapForY then y else x)
          / ((if swapForY then x else y) + dx * (1 - a.feeBps / 10000))⌋ ∧
      0 ≤ q.outAmountRaw ∧
      (q.outAmountRaw : ℚ) < (if swapForY then y else x) := by
  obtain ⟨xDec, hxDec⟩ := Option.isSome_iff_exists.mp hxd
  obtain ⟨yDec, hyDec⟩ := Option.isSome_iff_exists.mp hyd
  have hfpos : 0 < 1 - a.feeBps / 10000 := by linarith
  have he : 0 < dx * (1 - a.feeBps / 10000) := mul_pos hdx hfpos
  simp only [CPMMAdapter.quoteExactIn, hx, hy, hxDec, hyDec]
  rw [if_pos ⟨hxpos, hypos⟩, if_pos hdx]
  refine ⟨_, rfl, ?_, ?_, ?_⟩
  · cases swapForY <;> simp
  · cases swapForY <;> simp <;>
      first
      | exact (cpmm_out_bounds x y _ hxpos hypos he).1
      | exact (cpmm_out_bounds y x _ hypos hxpos he).1
  · cases swapForY <;> simp <;>
      first
      | exact (cpmm_out_bounds x y _ hxpos hypos he).2
      | exact (cpmm_out_bounds y x _ hypos hxpos he).2

/-- The worked example of the spec: a cpmm pool with reserves 10 to the 12 and
5 times 10 to the 11 atomic units, 30 bps fee and 6 decimals per side. -/
def examplePoolData : CpmmPoolData :=
  { xReserve := some 1000000000000, yReserve := some 500000000000,
    feeBps := some 30, baseDecimals := some 6, quoteDecimals := some 6 }

/-- The adapter over the worked-example pool. -/
def exampleAdapter : CPMMAdapter := CPMMAdapter.ofPoolData examplePoolData

/-- C4 witness: the theorem applied to the worked example of the spec, and the
closed-form value evaluated there: the quoted output is exactly 498003490
atomic units. -/
theorem cpmm_quoteExactIn_exact_floor_witness :
    (∃ q, exampleAdapter.quoteExactIn 1000000000 true 50 = .ok q ∧
        q.outAmountRaw =
          ⌊(1000000000 : ℚ) * (1 - exampleAdapter.feeBps / 10000)
              * (if true then (500000000000 : ℚ) else 1000000000000)
            / ((if true then (1000000000000 : ℚ) else 500000000000)
                + 1000000000 * (1 - exampleAdapter.feeBps / 10000))⌋ ∧
        0 ≤ q.outAmountRaw ∧
        (q.outAmountRaw : ℚ) < (if true then (500000000000 : ℚ) else 1000000000000)) ∧
    ⌊(1000000000 : ℚ) * (1 - exampleAdapter.feeBps / 10000)
        * (if true then (500000000000 : ℚ) else 1000000000000)
      / ((if true then (1000000000000 : ℚ) else 500000000000)
          + 1000000000 * (1 - exampleAdapter.feeBps / 10000))⌋ = 498003490 :=
  ⟨cpmm_quoteExactIn_exact_floor exampleAdapter 1000000000000 500000000000 1000000000 50 true
      rfl rfl rfl rfl (by norm_num) (by norm_num) (by norm_num)
      (by norm_num [exampleAdapter, CPMMAdapter.ofPoolData, examplePoolData])
      (by norm_num [exampleAdapter, CPMMAdapter.ofPoolData, examplePoolData]),
   by norm_num [exampleAdapter, CPMMAdapter.ofPoolData, examplePoolData, Int.floor_eq_iff]⟩

/-- A cpmm pool record with positive reserves and decimals but no fee field. -/
def noFeePoolData : CpmmPoolData :=
  { xReserve := some 1000000, yReserve := some 2000000,
    baseDecimals := some 6, quoteDecimals := some 6 }

/-- C5 counterexample: the claim says a quote request on a pool whose fee is
missing fails fast and never returns a quote built from substituted defaults.
On a pool with no fee field the adapter succeeds, with the quote built from
the substituted constructor default of 25 bps; getFeeRate likewise substitutes
the default rate 0.003 instead of failing. -/
theorem cpmm_missing_fee_counterexample :
    noFeePoolData.feeBps = none ∧
    (∃ q, (CPMMAdapter.ofPoolData noFeePoolData).quoteExactIn 1000 true 50 = .ok q ∧
        q.fee = 25 / 10000) ∧
    getFeeRate none none = 3 / 1000 :=
  ⟨rfl, ⟨_, rfl, rfl⟩, rfl⟩

/-- C5 amended: a quote request on a pool whose reserves are missing fails
fast with the reserves-missing error, one whose reserves are present but not
both positive fails fast with the reserves-zero error, and neither path
returns a quote; a missing fee, by contrast, is not an error: the constructor
substitutes the 25 bps default (and getFeeRate substitutes 0.003), so quotes
can be built from a defaulted fee. -/
theorem cpmm_reserves_failfast (pd : CpmmPoolData) (inAmt slippageBps : ℚ) (swapForY : Bool) :
    (pd.xReserve = none ∨ pd.yReserve = none →
      (CPMMAdapter.ofPoolData pd).quoteExactIn inAmt swapForY slippageBps
        = .error "CPMM reserves missing (run enrich reserves first)") ∧
    (∀ x y, pd.xReserve = some x → pd.yReserve = some y → ¬(0 < x ∧ 0 < y) →
      (CPMMAdapter.ofPoolData pd).quoteExactIn inAmt swapForY slippageBps
        = .error "CPMM reserves are zero (cannot quote)") ∧
    (pd.feeBps = none →
      (CPMMAdapter.ofPoolData pd).feeBps = 25 ∧ getFeeRate none none = 3 / 1000) := by
  refine ⟨?_, ?_, ?_⟩
  · intro h
    rcases h with h | h <;>
      cases h2 : pd.xReserve <;> cases h3 : pd.yReserve <;>
        simp_all [CPMMAdapter.quoteExactIn, CPMMAdapter.ofPoolData]
  · intro x y hx2 hy2 hnot
    simp only [CPMMAdapter.quoteExactIn, CPMMAdapter.ofPoolData, hx2, hy2]
    rw [if_neg hnot]
  · intro h
    simp [CPMMAdapter.ofPoolData, h, getFeeRate]

/-- C5 amended witness: the amended theorem applied to three concrete pools:
one missing its x reserve, one with a zero x reserve, one with no fee field. -/
theorem cpmm_reserves_failfast_witness :
    ((CPMMAdapter.ofPoolData { yReserve := some 5 }).quoteExactIn 100 true 50
      = .error "CPMM reserves missing (run enrich reserves first)") ∧
    ((CPMMAdapter.ofPoolData { xReserve := some 0, yReserve := some 5 }).quoteExactIn 100 true 50
      = .error "CPMM reserves are zero (cannot quote)") ∧
    ((CPMMAdapter.ofPoolData { xReserve := some 1, yReserve := some 1 }).feeBps = 25 ∧
      getFeeRate none none = 3 / 1000) :=
  ⟨(cpmm_reserves_failfast { yReserve := some 5 } 100 50 true).1 (Or.inl rfl),
   (cpmm_reserves_failfast { xReserve := some 0, yReserve := some 5 } 100 50 true).2.1
      0 5 rfl rfl (fun h => lt_irrefl 0 h.1),
   (cpmm_reserves_failfast { xReserve := some 1, yReserve := some 1 } 100 50 true).2.2 rfl⟩

/-! ## Claims C6, C10: the flashloan builder and the route executor -/

/-- An Except value is an error or a success. -/
lemma except_error_or_ok {α β : Type} (r : Except α β) :
    (∃ e, r = .error e) ∨ ∃ v, r = .ok v :=
  match r with
  | .error e => Or.inl ⟨e, rfl⟩
  | .ok v => Or.inr ⟨v, rfl⟩

/-- If the per-hop loop succeeds, every hop had both per-hop amounts present
and its own instruction build succeeded. -/
lemma loopHops_ok_spec (msgPre : String) (m : Option (SwapParams → List Ix))
    (legs : List Hop) (payer : String) (conn : Option String) (i : ℕ) (ixs : List Ix)
    (h : loopHops msgPre m legs payer conn i = .ok ixs) :
    ∀ hop ∈ legs, hop.amountInAtomic.isSome = true ∧ hop.minOutAtomic.isSome = true ∧
      ∃ hixs, buildSwapIxForPool m hop payer conn = .ok hixs := by
  induction legs generalizing i ixs with
  | nil => intro hop hmem; cases hmem
  | cons hd tl ih =>
    intro hop hmem
    unfold loopHops at h
    split_ifs at h with h1 h2
    rcases hbuild : buildSwapIxForPool m hd payer conn with e | hdIxs <;> rw [hbuild] at h
    · exact absurd h (by simp)
    · rcases hrest : loopHops msgPre m tl payer conn (i + 1) with e | restIxs <;>
        rw [hrest] at h
      · exact absurd h (by simp)
      · rcases List.mem_cons.mp hmem with rfl | hmem2
        · exact ⟨by simp [Option.isSome_iff_ne_none]; simpa using h1,
            by simp [Option.isSome_iff_ne_none]; simpa using h2, hdIxs, hbuild⟩
        · exact ih (i + 1) restIxs hrest hop hmem2

/-- A successful DLMM instruction build used the per-hop amounts of that hop:
the SDK swap builder was applied to exactly the hop fields. -/
lemma buildMeteoraDlmmSwapIxs_ok_shape (m : Option (SwapParams → List Ix)) (hop : Hop)
    (payer : String) (conn : Option String) (ixs : List Ix)
    (h : buildMeteoraDlmmSwapIxs m hop payer conn = .ok ixs) :
    ∃ f amtIn minOut binList, m = some f ∧
      hop.amountInAtomic = some amtIn ∧ hop.minOutAtomic = some minOut ∧
      ixs = f { inToken := hop.inputMint.getD "", outToken := hop.outputMint.getD "",
                inAmount := amtIn, minOutAmount := minOut,
                lbPair := (hopPoolAddr hop).getD "",
                user := payer, binArraysPubkey := binList } := by
  unfold buildMeteoraDlmmSwapIxs at h
  cases m with
  | none => exact absurd h (by simp)
  | some f =>
    dsimp only at h
    rcases hA : hop.amountInAtomic with _ | amtIn <;>
    rcases hM : hop.minOutAtomic with _ | minOut <;>
    rcases hB : hopBinArrayList hop with _ | binList <;>
    rw [hA, hM, hB] at h <;> dsimp only at h <;> split_ifs at h <;>
      exact ⟨f, amtIn, minOut, binList, rfl, rfl, rfl,
        ((Except.ok.injEq _ _).mp h).symm⟩

/-- A successful dispatch went through the Meteora DLMM branch with the same
result, since every other branch of buildSwapIxForPool throws. -/
lemma buildSwapIxForPool_ok (m : Option (SwapParams → List Ix)) (hop : Hop)
    (payer : String) (conn : Option String) (ixs : List Ix)
    (h : buildSwapIxForPool m hop payer conn = .ok ixs) :
    buildMeteoraDlmmSwapIxs m hop payer conn = .ok ixs := by
  unfold buildSwapIxForPool at h
  split_ifs at h
  exact h

/-- A successful buildFlashloanTx had a function-valued flashloan builder and
a successful per-hop loop. -/
lemma buildFlashloanTx_ok_spec (m : Option (SwapParams → List Ix))
    (conn payerKp loanMint : Option String) (loanAmt : Option ℕ)
    (legs : List Hop) (flashB : Option (FlashArgs → Except String Ix))
    (cb : Option ComputeBudget) (res : FlashloanTxResult)
    (h : buildFlashloanTx m conn payerKp loanMint loanAmt legs flashB cb = .ok res) :
    flashB.isSome = true ∧ ∃ ixs, loopHops "" m legs (payerKp.getD "") conn 0 = .ok ixs := by
  unfold buildFlashloanTx at h
  split_ifs at h
  cases flashB with
  | none => exact absurd h (by simp)
  | some fb =>
    refine ⟨rfl, ?_⟩
    dsimp only at h
    rcases hl : loopHops "" m legs (payerKp.getD "") conn 0 with e | ixs
    · rw [hl] at h
      exact absurd h (by simp)
    · exact ⟨ixs, rfl⟩

/-- C6: buildFlashloanTx fails with an error, returning no transaction, when
the flashloan builder is not a function, when any leg lacks its per-leg
amountInAtomic or minOutAtomic, or when any leg instruction build fails; and
on success every hop was built by applying the SDK swap builder to the fields
of that hop itself, with inAmount and minOutAmount the per-hop quoted amounts
(the overall loan amount does not occur in the swap parameters at all). -/
theorem buildFlashloanTx_failfast_per_hop (m : Option (SwapParams → List Ix))
    (connection payerKeypair loanMint : Option String) (loanAmountAtomic : Option ℕ)
    (routeLegs : List Hop) (flashB : Option (FlashArgs → Except String Ix))
    (cb : Option ComputeBudget) :
    ((flashB = none ∨
        (∃ hop ∈ routeLegs, hop.amountInAtomic = none ∨ hop.minOutAtomic = none) ∨
        (∃ hop ∈ routeLegs, ∃ e,
          buildSwapIxForPool m hop (payerKeypair.getD "") connection = .error e)) →
      ∃ e, buildFlashloanTx m connection payerKeypair loanMint loanAmountAtomic
        routeLegs flashB cb = .error e) ∧
    (∀ res, buildFlashloanTx m connection payerKeypair loanMint loanAmountAtomic
        routeLegs flashB cb = .ok res →
      ∀ hop ∈ routeLegs, ∃ f amtIn minOut binList, m = some f ∧
        hop.amountInAtomic = some amtIn ∧ hop.minOutAtomic = some minOut ∧
        buildSwapIxForPool m hop (payerKeypair.getD "") connection
          = .ok (f { inToken := hop.inputMint.getD "", outToken := hop.outputMint.getD "",
                     inAmount := amtIn, minOutAmount := minOut,
                     lbPair := (hopPoolAddr hop).getD "",
                     user := payerKeypair.getD "", binArraysPubkey := binList })) := by
  have okCase : ∀ res, buildFlashloanTx m connection payerKeypair loanMint loanAmountAtomic
      routeLegs flashB cb = .ok res →
      ∀ hop ∈ routeLegs, ∃ f amtIn minOut binList, m = some f ∧
        hop.amountInAtomic = some amtIn ∧ hop.minOutAtomic = some minOut ∧
        buildSwapIxForPool m hop (payerKeypair.getD "") connection
          = .ok (f { inToken := hop.inputMint.getD "", outToken := hop.outputMint.getD "",
                     inAmount := amtIn, minOutAmount := minOut,
                     lbPair := (hopPoolAddr hop).getD "",
                     user := payerKeypair.getD "", binArraysPubkey := binList }) := by
    intro res hres hop hmem
    obtain ⟨hfb, ixs, hloop⟩ := buildFlashloanTx_ok_spec m connection payerKeypair loanMint
      loanAmountAtomic routeLegs flashB cb res hres
    obtain ⟨hA, hM, hixs, hok⟩ :=
      loopHops_ok_spec "" m routeLegs (payerKeypair.getD "") connection 0 ixs hloop hop hmem
    obtain ⟨f, amtIn, minOut, binList, hf, hA2, hM2, hIx⟩ :=
      buildMeteoraDlmmSwapIxs_ok_shape m hop (payerKeypair.getD "") connection hixs
        (buildSwapIxForPool_ok m hop (payerKeypair.getD "") connection hixs hok)
    exact ⟨f, amtIn, minOut, binList, hf, hA2, hM2, by rw [hok, hIx]⟩
  refine ⟨?_, okCase⟩
  intro hbad
  rcases except_error_or_ok (buildFlashloanTx m connection payerKeypair loanMint
      loanAmountAtomic routeLegs flashB cb) with ⟨e, he⟩ | ⟨res, hres⟩
  · exact ⟨e, he⟩
  · exfalso
    obtain ⟨hfb, ixs, hloop⟩ := buildFlashloanTx_ok_spec m connection payerKeypair loanMint
      loanAmountAtomic routeLegs flashB cb res hres
    rcases hbad with hnone | ⟨hop, hmem, hmiss⟩ | ⟨hop, hmem, e, herr⟩
    · rw [hnone] at hfb; exact absurd hfb (by simp)
    · obtain ⟨hA, hM, _⟩ :=
        loopHops_ok_spec "" m routeLegs (payerKeypair.getD "") connection 0 ixs hloop hop hmem
      rcases hmiss with hh | hh
      · rw [hh] at hA; exact absurd hA (by simp)
      · rw [hh] at hM; exact absurd hM (by simp)
    · obtain ⟨_, _, hixs, hok⟩ :=
        loopHops_ok_spec "" m routeLegs (payerKeypair.getD "") connection 0 ixs hloop hop hmem
      rw [hok] at herr
      exact absurd herr (by simp)

/-- C6 witness: a flashloan builder that is not a function makes the build
fail with an error on a concrete call. -/
theorem buildFlashloanTx_failfast_per_hop_witness :
    ∃ e, buildFlashloanTx none (some "conn") (some "payer") none none
      [{}] none none = .error e :=
  (buildFlashloanTx_failfast_per_hop none (some "conn") (some "payer")
    none none [{}] none none).1 (Or.inl rfl)

/-- A concrete always-successful SDK swap builder. -/
def sdkFix : Option (SwapParams → List Ix) := some fun ps => [Ix.sdkSwap ps]

/-- A concrete function-valued flashloan instruction builder. -/
def flashBuilderFix : Option (FlashArgs → Except String Ix) :=
  some fun args => .ok (Ix.flash args.loanMint args.loanAmountAtomic args.callbackIxs)

/-- A fully well-formed Meteora DLMM route leg. -/
def hopFix : Hop :=
  { poolAddress := some "POOLADDR", inputMint := some "MINTIN", outputMint := some "MINTOUT",
    amountInAtomic := some 100, minOutAtomic := some 90,
    dexType := some "METEORA_DLMM", binArrays := some ["BINARRAY1"] }

/-- C10: neither buildFlashloanTx nor executeRoute validates a leg count of
exactly three: both accept a well-formed two-leg route and a well-formed
four-leg route without error (only emptiness is rejected). -/
theorem routeLegs_length_not_validated :
    (buildFlashloanTx sdkFix (some "conn") (some "payer") (some "LOANMINT") (some 1000)
        [hopFix, hopFix] flashBuilderFix none).isOk = true ∧
    (buildFlashloanTx sdkFix (some "conn") (some "payer") (some "LOANMINT") (some 1000)
        [hopFix, hopFix, hopFix, hopFix] flashBuilderFix none).isOk = true ∧
    (executeRoute sdkFix (some "conn") (some "payer") [hopFix, hopFix] none).isOk = true ∧
    (executeRoute sdkFix (some "conn") (some "payer")
        [hopFix, hopFix, hopFix, hopFix] none).isOk = true :=
  ⟨rfl, rfl, rfl, rfl⟩

end KimiArb
